import Mathlib

/-!
Verification of the jodit excerpt: the ai-assistant plugin
(src/plugins/ai-assistant/ai-assistant.ts) and the component decorator
(src/core/decorators/component.ts).

The plugin code is event-driven glue over host facilities (selection,
event bus, dialogs, async promises).  We embed each handler as a function
from the host environment to the list of observable effects it performs,
in order.  The decorator is embedded as an operational model of the
JavaScript class/prototype machinery it manipulates.
-/

namespace Jodit

/-- An observable effect performed by the plugin on its host editor.
Constructors mirror the host calls appearing in ai-assistant.ts:
jodit.s.focus(), the invocation of o.aiAssistant.aiAssistantCallback,
jodit.e.fire(name, payload), jodit.message.error(msg),
jodit.s.setCursorAfter(...), jodit.s.insertHTML(html), dialog.close(),
dialog.open(container, title), container.setPrompt(p), and the
destruct() calls in beforeDestruct.  Dialog and container objects are
identified by numeric ids. -/
inductive Effect where
  | focus
  | invokeCallback (prompt selectedHtml : String)
  | fireEvent (name payload : String)
  | messageError (msg : String)
  | setCursorAfter
  | insertHTML (html : String)
  | closeDialog
  | openDialog (dialog container : Nat) (title : String)
  | setPrompt (container : Nat) (p : String)
  | destructContainer (id : Nat)
  | destructDialog (id : Nat)
deriving DecidableEq, Repr

/-- A JavaScript error value, as far as the catch handler inspects it:
isAbortError(error) and error.message. -/
structure JsError where
  isAbort : Bool
  message : String
deriving DecidableEq, Repr

/-- Outcome of awaiting the external aiAssistantCallback: either it
resolves with an HTML fragment or it rejects with an error (the
cancellable promise wrapper also rejects with an abort-kind error when
cancelled, which the same model covers). -/
inductive CallbackResult where
  | success (html : String)
  | failure (error : JsError)
deriving DecidableEq, Repr

/-- The host state visible to onInvokeAiAssistant: the selected HTML
(jodit.s.html, read after focus) and the application-supplied
aiAssistantCallback together with how its promise settles. -/
structure JoditEnv where
  selectedHtml : String
  aiAssistantCallback : String → String → CallbackResult

/-- Embedding of aiAssistant.onInvokeAiAssistant (ai-assistant.ts lines
86-113): focus the editor, read the selected HTML, invoke the external
callback once inside a promise; on resolution fire the
ai-assistant-response event with the fragment; on rejection, discard
abort errors, otherwise show error.message to the user and fire the
ai-assistant-error event with it. -/
def onInvokeAiAssistant (env : JoditEnv) (prompt : String) : List Effect :=
  let selectedText := env.selectedHtml
  Effect.focus ::
  Effect.invokeCallback prompt selectedText ::
  match env.aiAssistantCallback prompt selectedText with
  | CallbackResult.success htmlFragment =>
      [Effect.fireEvent "ai-assistant-response" htmlFragment]
  | CallbackResult.failure error =>
      if error.isAbort then
        []
      else
        [Effect.messageError error.message,
         Effect.fireEvent "ai-assistant-error" error.message]

/-- The onInsert handler the plugin passes to UiAiAssistant
(ai-assistant.ts lines 64-68): focus, insert the HTML, close the
dialog. -/
def onInsert (html : String) : List Effect :=
  [Effect.focus, Effect.insertHTML html, Effect.closeDialog]

/-- The onInsertAfter handler the plugin passes to UiAiAssistant
(ai-assistant.ts lines 58-63): focus, set the cursor after the current
node, insert the HTML, close the dialog. -/
def onInsertAfter (html : String) : List Effect :=
  [Effect.focus, Effect.setCursorAfter, Effect.insertHTML html,
   Effect.closeDialog]

/-- Modelled from the spec: the UiAiAssistant container class
(plugins/ai-assistant/ui/ui-ai-assistant.ts is not among the given
sources).  Per the spec the plugin "forwards a user prompt and selected
HTML to an external callback, and inserts the returned HTML fragment
into the document": on a successful response carrying an HTML fragment
the container invokes the insert handler supplied by the plugin with
that fragment. -/
def containerHandleResponse (htmlFragment : String) : List Effect :=
  onInsert htmlFragment

/-- The full success path: run onInvokeAiAssistant, then let the
container handle every ai-assistant-response event fired in the trace. -/
def invokeAndInsert (env : JoditEnv) (prompt : String) : List Effect :=
  let trace := onInvokeAiAssistant env prompt
  trace ++ trace.flatMap fun e =>
    match e with
    | Effect.fireEvent name payload =>
        if name = "ai-assistant-response" then containerHandleResponse payload
        else []
    | _ => []

/-- The cache state of the plugin instance: what the @cache decorator
has stored for the __dialog and __container getters, plus a counter
supplying fresh object identities.  Modelled from the spec: the cache
decorator (core/decorators/cache/cache.ts is not among the given
sources) makes a getter construct its object on first access, store it,
and return the stored object ever after ("created lazily"). -/
structure CacheState where
  dialogCache : Option Nat
  containerCache : Option Nat
  nextId : Nat
deriving DecidableEq, Repr

/-- A fresh plugin instance has accessed neither getter. -/
def initialPluginState : CacheState :=
  { dialogCache := none, containerCache := none, nextId := 0 }

/-- Access of the cached __dialog getter (ai-assistant.ts lines 41-51):
return the cached dialog if present, otherwise construct a new dialog
object, cache it and return it. -/
def getDialog (s : CacheState) : Nat × CacheState :=
  match s.dialogCache with
  | some d => (d, s)
  | none =>
      (s.nextId,
       { s with dialogCache := some s.nextId, nextId := s.nextId + 1 })

/-- Access of the cached __container getter (ai-assistant.ts lines
53-70): return the cached container if present; otherwise the getter
body first reads __dialog (const (jodit, __dialog) = this), then
constructs the UiAiAssistant container, caches it and returns it. -/
def getContainer (s : CacheState) : Nat × CacheState :=
  match s.containerCache with
  | some c => (c, s)
  | none =>
      let s1 := (getDialog s).2
      (s1.nextId,
       { s1 with containerCache := some s1.nextId, nextId := s1.nextId + 1 })

/-- Embedding of aiAssistant.onGenerateAiAssistantForm (ai-assistant.ts
lines 80-84): open the dialog on the container with title
"AI Assistant", then set the container prompt.  Getter accesses go
through the cache. -/
def onGenerateAiAssistantForm (s : CacheState) (prompt : String) :
    List Effect × CacheState :=
  let (d, s1) := getDialog s
  let (c, s2) := getContainer s1
  ([Effect.openDialog d c "AI Assistant", Effect.setPrompt c prompt], s2)

/-- Embedding of aiAssistant.beforeDestruct (ai-assistant.ts lines
116-119): cached(this, __container)?.destruct() then
cached(this, __dialog)?.destruct().  Modelled from the spec: the
cached() helper (core/decorators/cache/cache.ts is not among the given
sources) reads the stored value without invoking the getter, so nothing
is constructed here and the state is unchanged. -/
def beforeDestruct (s : CacheState) : List Effect × CacheState :=
  ((match s.containerCache with
    | some c => [Effect.destructContainer c]
    | none => []) ++
   (match s.dialogCache with
    | some d => [Effect.destructDialog d]
    | none => []), s)

end Jodit

namespace Component

/-- Operational model of the JavaScript classes the component decorator
(component.ts) operates on.  A class is a chain of constructors; each
node owns a distinct prototype object.
base c: a plain class whose prototype defines a className method
returning the constant c (none when no className method is defined).
extend c p: a subclass of p, overriding className when c is some.
decorated inner: the wrapper class newConstructorFunction returned by
component(inner); its prototype defines no own className, so lookups
fall through to inner. -/
inductive JSClass where
  | base (className : Option String)
  | extend (className : Option String) (parent : JSClass)
  | decorated (inner : JSClass)
deriving DecidableEq, Repr

namespace JSClass

/-- Prototype-chain lookup of the className method: the value
className() returns for an object whose prototype chain starts at this
class, or none when no class in the chain defines one. -/
def lookupClassName : JSClass → Option String
  | base c => c
  | extend c p => match c with
      | some s => some s
      | none => lookupClassName p
  | decorated inner => lookupClassName inner

end JSClass

/-- Equality test as computed by cn (component.ts lines 86-88) and the
strict comparison on line 107: cn returns className() when the method
exists, NaN otherwise, and NaN === NaN is false, so two lookup results
compare equal only when both are strings and equal. -/
def cnEq : Option String → Option String → Bool
  | some a, some b => a == b
  | _, _ => false

/-- Running the constructor chain of a JSClass during new top(...), for
an instance whose own prototype is top's prototype (thisCn is the
className visible on the instance).  atTop records whether the node
being run is top itself: Object.getPrototypeOf(this) is top's prototype
object, and each decorated node's wrapper prototype is a distinct
object, so isSamePrototype holds exactly at the top node.  The result
is the ordered list of setStatus("ready") calls (true when issued by
the top node's wrapper) or the thrown error message.  super runs before
the wrapper's own checks (component.ts lines 98-116), so inner events
come first. -/
def runCtorChain (isProd : Bool) (thisCn : Option String) :
    JSClass → Bool → Except String (List Bool)
  | JSClass.base _, _ => Except.ok []
  | JSClass.extend _ p, _ => runCtorChain isProd thisCn p false
  | JSClass.decorated inner, atTop => do
      let events ← runCtorChain isProd thisCn inner false
      let isSamePrototype := atTop
      let isSameClassName := cnEq thisCn inner.lookupClassName
      if !isProd && isSamePrototype && !isSameClassName then
        Except.error "Need use decorator only for components"
      else if isSamePrototype || isSameClassName then
        Except.ok (events ++ [atTop])
      else
        Except.ok events

/-- new cls(...): run the chain with the instance's prototype being
cls's own prototype. -/
def newInstance (isProd : Bool) (cls : JSClass) : Except String (List Bool) :=
  runCtorChain isProd cls.lookupClassName cls true

/-- A class chain containing no decorated wrapper. -/
def noDecorated : JSClass → Bool
  | JSClass.base _ => true
  | JSClass.extend _ p => noDecorated p
  | JSClass.decorated _ => false

end Component

open Jodit Component

/-- The abort branch of the catch handler produces no further effects:
the trace of a failing invocation whose error is abort-kind is exactly
focus and the single callback invocation. -/
theorem onInvoke_abort_trace (env : JoditEnv) (prompt : String)
    (err : JsError)
    (h : env.aiAssistantCallback prompt env.selectedHtml =
      CallbackResult.failure err) (ha : err.isAbort = true) :
    onInvokeAiAssistant env prompt =
      [Effect.focus, Effect.invokeCallback prompt env.selectedHtml] := by
  simp [onInvokeAiAssistant, h, ha]

/-- The non-abort branch of the catch handler shows the message and
fires the error event, in that order, after the invocation. -/
theorem onInvoke_error_trace (env : JoditEnv) (prompt : String)
    (err : JsError)
    (h : env.aiAssistantCallback prompt env.selectedHtml =
      CallbackResult.failure err) (ha : err.isAbort = false) :
    onInvokeAiAssistant env prompt =
      [Effect.focus, Effect.invokeCallback prompt env.selectedHtml,
       Effect.messageError err.message,
       Effect.fireEvent "ai-assistant-error" err.message] := by
  simp [onInvokeAiAssistant, h, ha]

/-- The then branch fires the response event with the resolved
fragment. -/
theorem onInvoke_success_trace (env : JoditEnv) (prompt : String)
    (html : String)
    (h : env.aiAssistantCallback prompt env.selectedHtml =
      CallbackResult.success html) :
    onInvokeAiAssistant env prompt =
      [Effect.focus, Effect.invokeCallback prompt env.selectedHtml,
       Effect.fireEvent "ai-assistant-response" html] := by
  simp [onInvokeAiAssistant, h]

/-- Claim C1: every failure of the external aiAssistantCallback during
onInvokeAiAssistant reaches the single catch point: an abort-kind error
is discarded with no user message and no event fired, and every other
error has its message shown via the host messaging facility and an
ai-assistant-error event fired with that message string. -/
theorem claim_C1_error_catch_point (env : JoditEnv) (prompt : String)
    (err : JsError)
    (h : env.aiAssistantCallback prompt env.selectedHtml =
      CallbackResult.failure err) :
    (err.isAbort = true →
      (∀ m, Effect.messageError m ∉ onInvokeAiAssistant env prompt) ∧
      (∀ name payload,
        Effect.fireEvent name payload ∉ onInvokeAiAssistant env prompt)) ∧
    (err.isAbort = false →
      Effect.messageError err.message ∈ onInvokeAiAssistant env prompt ∧
      Effect.fireEvent "ai-assistant-error" err.message ∈
        onInvokeAiAssistant env prompt) := by
  constructor
  · intro ha
    rw [onInvoke_abort_trace env prompt err h ha]
    constructor
    · intro m; simp
    · intro name payload; simp
  · intro ha
    rw [onInvoke_error_trace env prompt err h ha]
    constructor
    · simp
    · simp

theorem claim_C1_witness :
    Effect.messageError "cancelled" ∉
      onInvokeAiAssistant
        ⟨"sel", fun _ _ => CallbackResult.failure ⟨true, "cancelled"⟩⟩ "p" ∧
    Effect.messageError "boom" ∈
      onInvokeAiAssistant
        ⟨"sel", fun _ _ => CallbackResult.failure ⟨false, "boom"⟩⟩ "p" ∧
    Effect.fireEvent "ai-assistant-error" "boom" ∈
      onInvokeAiAssistant
        ⟨"sel", fun _ _ => CallbackResult.failure ⟨false, "boom"⟩⟩ "p" :=
  ⟨((claim_C1_error_catch_point
      ⟨"sel", fun _ _ => CallbackResult.failure ⟨true, "cancelled"⟩⟩ "p"
      ⟨true, "cancelled"⟩ rfl).1 rfl).1 "cancelled",
   ((claim_C1_error_catch_point
      ⟨"sel", fun _ _ => CallbackResult.failure ⟨false, "boom"⟩⟩ "p"
      ⟨false, "boom"⟩ rfl).2 rfl).1,
   ((claim_C1_error_catch_point
      ⟨"sel", fun _ _ => CallbackResult.failure ⟨false, "boom"⟩⟩ "p"
      ⟨false, "boom"⟩ rfl).2 rfl).2⟩

/-- Claim C2: when the external callback resolves with an HTML
fragment, exactly one ai-assistant-response event carrying that
fragment is fired, every response event in the trace carries that
fragment, and no error event and no user error message is produced. -/
theorem claim_C2_success_event (env : JoditEnv) (prompt : String)
    (html : String)
    (h : env.aiAssistantCallback prompt env.selectedHtml =
      CallbackResult.success html) :
    (onInvokeAiAssistant env prompt).count
      (Effect.fireEvent "ai-assistant-response" html) = 1 ∧
    (∀ payload,
      Effect.fireEvent "ai-assistant-response" payload ∈
        onInvokeAiAssistant env prompt → payload = html) ∧
    (∀ payload,
      Effect.fireEvent "ai-assistant-error" payload ∉
        onInvokeAiAssistant env prompt) ∧
    (∀ m, Effect.messageError m ∉ onInvokeAiAssistant env prompt) := by
  rw [onInvoke_success_trace env prompt html h]
  refine ⟨?_, ?_, ?_, ?_⟩
  · simp [List.count_cons]
  · intro payload hp
    simp at hp
    exact hp
  · intro payload; simp
  · intro m; simp

theorem claim_C2_witness :
    (onInvokeAiAssistant
      ⟨"sel", fun _ _ => CallbackResult.success "<p>x</p>"⟩ "p").count
        (Effect.fireEvent "ai-assistant-response" "<p>x</p>") = 1 ∧
    Effect.fireEvent "ai-assistant-error" "e" ∉
      onInvokeAiAssistant
        ⟨"sel", fun _ _ => CallbackResult.success "<p>x</p>"⟩ "p" :=
  ⟨(claim_C2_success_event
      ⟨"sel", fun _ _ => CallbackResult.success "<p>x</p>"⟩ "p" "<p>x</p>"
      rfl).1,
   (claim_C2_success_event
      ⟨"sel", fun _ _ => CallbackResult.success "<p>x</p>"⟩ "p" "<p>x</p>"
      rfl).2.2.1 "e"⟩

/-- Claim C3: on every :invokeAiAssistant event the plugin invokes the
external callback exactly once, with the prompt as first argument and
the selected HTML, read after focusing, as second argument; no outcome
of the callback causes a second invocation. -/
theorem claim_C3_callback_once (env : JoditEnv) (prompt : String) :
    (onInvokeAiAssistant env prompt).countP
      (fun e => match e with
        | Effect.invokeCallback _ _ => true
        | _ => false) = 1 ∧
    ∃ rest, onInvokeAiAssistant env prompt =
      Effect.focus ::
      Effect.invokeCallback prompt env.selectedHtml :: rest := by
  constructor
  · unfold onInvokeAiAssistant
    cases hr : env.aiAssistantCallback prompt env.selectedHtml with
    | success html => simp [hr, List.countP_cons]
    | failure err =>
        cases ha : err.isAbort with
        | true => simp [hr, ha, List.countP_cons]
        | false => simp [hr, ha, List.countP_cons]
  · exact ⟨_, rfl⟩

/-- Claim C4: on a successful callback result the returned HTML
fragment ends up inserted into the document via jodit.s.insertHTML,
after which the dialog is closed. -/
theorem claim_C4_insert_then_close (env : JoditEnv) (prompt : String)
    (html : String)
    (h : env.aiAssistantCallback prompt env.selectedHtml =
      CallbackResult.success html) :
    ∃ pre post, invokeAndInsert env prompt =
      pre ++ Effect.insertHTML html :: Effect.closeDialog :: post := by
  refine ⟨[Effect.focus, Effect.invokeCallback prompt env.selectedHtml,
           Effect.fireEvent "ai-assistant-response" html, Effect.focus],
          [], ?_⟩
  unfold invokeAndInsert
  rw [onInvoke_success_trace env prompt html h]
  simp [containerHandleResponse, onInsert]

theorem claim_C4_witness :
    ∃ pre post,
      invokeAndInsert
        ⟨"sel", fun _ _ => CallbackResult.success "<p>x</p>"⟩ "p" =
      pre ++ Effect.insertHTML "<p>x</p>" ::
        Effect.closeDialog :: post :=
  claim_C4_insert_then_close
    ⟨"sel", fun _ _ => CallbackResult.success "<p>x</p>"⟩ "p" "<p>x</p>" rfl

/-- Claim C6: the dialog and container are created lazily and at most
once: a getter access right after a previous access returns the same
cached object and leaves the state unchanged; a fresh plugin instance
has constructed neither; and on teardown destruct() is called on each
object that was created. -/
theorem claim_C6_lazy_cache_and_destruct (s : CacheState) :
    getDialog (getDialog s).2 = ((getDialog s).1, (getDialog s).2) ∧
    getContainer (getContainer s).2 =
      ((getContainer s).1, (getContainer s).2) ∧
    initialPluginState.dialogCache = none ∧
    initialPluginState.containerCache = none ∧
    (∀ c, s.containerCache = some c →
      Effect.destructContainer c ∈ (beforeDestruct s).1) ∧
    (∀ d, s.dialogCache = some d →
      Effect.destructDialog d ∈ (beforeDestruct s).1) := by
  refine ⟨?_, ?_, rfl, rfl, ?_, ?_⟩
  · cases hd : s.dialogCache with
    | some d => simp [getDialog, hd]
    | none => simp [getDialog, hd]
  · cases hc : s.containerCache with
    | some c => simp [getContainer, hc]
    | none => simp [getContainer, hc]
  · intro c hc
    simp [beforeDestruct, hc]
  · intro d hd
    simp [beforeDestruct, hd]

theorem claim_C6_lazy_cache_and_destruct_witness :
    Effect.destructContainer 1 ∈
      (beforeDestruct ⟨some 0, some 1, 2⟩).1 ∧
    Effect.destructDialog 0 ∈
      (beforeDestruct ⟨some 0, some 1, 2⟩).1 :=
  ⟨(claim_C6_lazy_cache_and_destruct ⟨some 0, some 1, 2⟩).2.2.2.2.1 1 rfl,
   (claim_C6_lazy_cache_and_destruct ⟨some 0, some 1, 2⟩).2.2.2.2.2 0 rfl⟩

/-- Claim C7: on every :generateAiAssistantForm.ai-assistant event with
prompt p the plugin opens its dialog displaying the AI-assistant
container with title "AI Assistant" and then sets the prompt of that
same container to p. -/
theorem claim_C7_open_dialog_then_set_prompt (s : CacheState)
    (prompt : String) :
    ∃ d c s2,
      onGenerateAiAssistantForm s prompt =
        ([Effect.openDialog d c "AI Assistant",
          Effect.setPrompt c prompt], s2) ∧
      getDialog s = (d, (getDialog s).2) ∧
      getContainer (getDialog s).2 = (c, s2) := by
  refine ⟨(getDialog s).1, (getContainer (getDialog s).2).1,
          (getContainer (getDialog s).2).2, ?_, rfl, rfl⟩
  rfl

/-- Claim C10: teardown touches only objects that already exist: it
reads the caches without invoking the getters, so the plugin state is
unchanged, a getter never accessed yields no destruct call, and with
both getters unaccessed teardown performs no effect at all. -/
theorem claim_C10_teardown_frame (s : CacheState) :
    (beforeDestruct s).2 = s ∧
    (s.dialogCache = none →
      ∀ d, Effect.destructDialog d ∉ (beforeDestruct s).1) ∧
    (s.containerCache = none →
      ∀ c, Effect.destructContainer c ∉ (beforeDestruct s).1) ∧
    (s.dialogCache = none → s.containerCache = none →
      (beforeDestruct s).1 = []) := by
  refine ⟨rfl, ?_, ?_, ?_⟩
  · intro hd d
    cases hc : s.containerCache with
    | some c => simp [beforeDestruct, hd, hc]
    | none => simp [beforeDestruct, hd, hc]
  · intro hc c
    cases hd : s.dialogCache with
    | some d => simp [beforeDestruct, hd, hc]
    | none => simp [beforeDestruct, hd, hc]
  · intro hd hc
    simp [beforeDestruct, hd, hc]

theorem claim_C10_teardown_frame_witness :
    (beforeDestruct initialPluginState).2 = initialPluginState ∧
    (beforeDestruct initialPluginState).1 = [] :=
  ⟨(claim_C10_teardown_frame initialPluginState).1,
   (claim_C10_teardown_frame initialPluginState).2.2.2 rfl rfl⟩

/-- One step of the wrapper constructor: with the super chain already
run, the decorated node reduces to its prototype and className checks. -/
theorem runCtorChain_decorated (isProd : Bool) (thisCn : Option String)
    (inner : JSClass) (atTop : Bool) (l : List Bool)
    (hl : runCtorChain isProd thisCn inner false = Except.ok l) :
    runCtorChain isProd thisCn (JSClass.decorated inner) atTop =
      if !isProd && atTop && !(cnEq thisCn inner.lookupClassName) then
        Except.error "Need use decorator only for components"
      else if atTop || cnEq thisCn inner.lookupClassName then
        Except.ok (l ++ [atTop])
      else Except.ok l := by
  simp only [runCtorChain, hl]
  rfl

/-- Below the top of the chain a wrapper never throws: the throw guard
requires isSamePrototype, which holds only at the top node. -/
theorem runCtorChain_notTop_ok (isProd : Bool) (thisCn : Option String) :
    ∀ c : JSClass, ∃ l, runCtorChain isProd thisCn c false = Except.ok l := by
  intro c
  induction c with
  | base cn => exact ⟨[], rfl⟩
  | extend cn p ih =>
      obtain ⟨l, hl⟩ := ih
      exact ⟨l, by simpa [runCtorChain] using hl⟩
  | decorated inner ih =>
      obtain ⟨l, hl⟩ := ih
      rw [runCtorChain_decorated isProd thisCn inner false l hl]
      refine ⟨if cnEq thisCn inner.lookupClassName then l ++ [false] else l,
              ?_⟩
      cases hc : cnEq thisCn inner.lookupClassName <;> simp [hc]

/-- A chain with no decorated wrapper performs no setStatus call and
never throws. -/
theorem noDecorated_runCtorChain (isProd : Bool) (thisCn : Option String) :
    ∀ c : JSClass, noDecorated c = true →
      runCtorChain isProd thisCn c false = Except.ok [] := by
  intro c
  induction c with
  | base cn => intro _; rfl
  | extend cn p ih =>
      intro h
      simpa [runCtorChain] using ih (by simpa [noDecorated] using h)
  | decorated inner ih =>
      intro h
      simp [noDecorated] at h

/-- cn-style equality with a definite string on the left fails against
any different lookup result. -/
theorem cnEq_of_ne (s : String) (o : Option String) (h : o ≠ some s) :
    cnEq (some s) o = false := by
  cases o with
  | none => rfl
  | some t =>
      simp [cnEq]
      intro hst
      exact h (by rw [hst])

/-- cn-style equality never holds when the left side is NaN. -/
theorem cnEq_none_left (o : Option String) : cnEq none o = false := by
  cases o <;> rfl

/-- Claim C5 as stated is false: in a non-production build, directly
instantiating a decorated class that provides no className function
throws instead of calling setStatus("ready"), so construction does not
return with the component ready. -/
theorem claim_C5_counterexample :
    newInstance false (JSClass.decorated (JSClass.base none)) =
      Except.error "Need use decorator only for components" := rfl

/-- Claim C5 (amended): for every decorated class whose instantiation
does not throw, which holds whenever the build is production or the
class provides a className function, setStatus("ready") is called by
the decorating wrapper after the original constructor has completed: it
is the final status event of the construction, so the instance is ready
once construction returns. -/
theorem claim_C5_ready_after_construction (isProd : Bool) (c : JSClass)
    (h : isProd = true ∨ ∃ s, c.lookupClassName = some s) :
    ∃ l, newInstance isProd (JSClass.decorated c) =
      Except.ok (l ++ [true]) := by
  obtain ⟨l, hl⟩ :=
    runCtorChain_notTop_ok isProd (JSClass.decorated c).lookupClassName c
  refine ⟨l, ?_⟩
  show runCtorChain isProd (JSClass.decorated c).lookupClassName
    (JSClass.decorated c) true = _
  rw [runCtorChain_decorated isProd (JSClass.decorated c).lookupClassName
    c true l hl]
  rcases h with hp | ⟨s, hs⟩
  · subst hp
    simp
  · have hcn :
        cnEq (JSClass.decorated c).lookupClassName c.lookupClassName =
          true := by
      have he : (JSClass.decorated c).lookupClassName = c.lookupClassName :=
        rfl
      rw [he, hs]
      simp [cnEq]
    rw [hcn]
    simp

theorem claim_C5_ready_after_construction_witness :
    ∃ l, newInstance false (JSClass.decorated (JSClass.base (some "A"))) =
      Except.ok (l ++ [true]) :=
  claim_C5_ready_after_construction false (JSClass.base (some "A"))
    (Or.inr ⟨"A", rfl⟩)

/-- Claim C8 as stated is false: when the derived decorated class
inherits the className of the decorated class it extends, the inner
wrapper's className check passes even though its prototype check fails,
so setStatus("ready") is called twice and the first call happens during
the super-constructor call, before the whole chain has finished. -/
theorem claim_C8_counterexample :
    newInstance false
      (JSClass.decorated (JSClass.extend none
        (JSClass.decorated (JSClass.base (some "X"))))) =
      Except.ok [false, true] := rfl

/-- Claim C8 (amended): when a decorated class extends a decorated
class and the derived chain's className differs from the one visible on
the inner decorated class (as when each component supplies its own
className), constructing the derived class calls setStatus("ready")
exactly once, from the outermost wrapper, after the whole constructor
chain has finished. -/
theorem claim_C8_outermost_ready_once (isProd : Bool) (c : JSClass)
    (ovr : Option String) (s : String)
    (hplain : noDecorated c = true)
    (hderived :
      (JSClass.extend ovr (JSClass.decorated c)).lookupClassName = some s)
    (hdiff : c.lookupClassName ≠ some s) :
    newInstance isProd
      (JSClass.decorated (JSClass.extend ovr (JSClass.decorated c))) =
      Except.ok [true] := by
  have hne : cnEq (some s) c.lookupClassName = false :=
    cnEq_of_ne s c.lookupClassName hdiff
  have h0 : runCtorChain isProd (some s) c false = Except.ok [] :=
    noDecorated_runCtorChain isProd (some s) c hplain
  have h1 : runCtorChain isProd (some s) (JSClass.decorated c) false =
      Except.ok [] := by
    rw [runCtorChain_decorated isProd (some s) c false [] h0, hne]
    simp
  have h2 : runCtorChain isProd (some s)
      (JSClass.extend ovr (JSClass.decorated c)) false = Except.ok [] := by
    simpa [runCtorChain] using h1
  have hcn :
      cnEq (some s)
        (JSClass.extend ovr (JSClass.decorated c)).lookupClassName =
        true := by
    rw [hderived]
    simp [cnEq]
  have hthis :
      (JSClass.decorated
        (JSClass.extend ovr (JSClass.decorated c))).lookupClassName =
        some s := hderived
  show runCtorChain isProd
    (JSClass.decorated
      (JSClass.extend ovr (JSClass.decorated c))).lookupClassName
    (JSClass.decorated (JSClass.extend ovr (JSClass.decorated c))) true = _
  rw [hthis,
    runCtorChain_decorated isProd (some s)
      (JSClass.extend ovr (JSClass.decorated c)) true [] h2,
    hcn]
  simp

theorem claim_C8_outermost_ready_once_witness :
    newInstance false
      (JSClass.decorated (JSClass.extend (some "B")
        (JSClass.decorated (JSClass.base (some "A"))))) =
      Except.ok [true] :=
  claim_C8_outermost_ready_once false (JSClass.base (some "A"))
    (some "B") "B" rfl rfl (by decide)

/-- Claim C9: in a non-production build, directly instantiating a
decorated class that provides no className function throws
"Need use decorator only for components": cn yields NaN for both the
instance and the wrapper prototype, NaN is not equal to NaN, so the
className check fails while the prototype check holds. -/
theorem claim_C9_throw_without_className (c : JSClass)
    (h : c.lookupClassName = none) :
    newInstance false (JSClass.decorated c) =
      Except.error "Need use decorator only for components" := by
  obtain ⟨l, hl⟩ := runCtorChain_notTop_ok false none c
  have hthis : (JSClass.decorated c).lookupClassName = none := h
  show runCtorChain false (JSClass.decorated c).lookupClassName
    (JSClass.decorated c) true = _
  rw [hthis, runCtorChain_decorated false none c true l hl,
    cnEq_none_left]
  simp

theorem claim_C9_throw_without_className_witness :
    newInstance false (JSClass.decorated (JSClass.base none)) =
      Except.error "Need use decorator only for components" :=
  claim_C9_throw_without_className (JSClass.base none) rfl
